import Mathlib

/-!
Shallow embedding of `stream-reconnect`'s `src/config.rs`.

The source file defines a reconnection-policy configuration object
(`ReconnectOptions`) with five fields, a set of builder methods that each
replace one field, and the default backoff schedule generator
(`get_standard_reconnect_strategy`).

Modelling choices:
* `Duration` is the number of seconds (`Nat`); every duration in the source
  is built with `Duration::from_secs`.
* A boxed `dyn Iterator<Item = Duration>` is modelled as an explicit state
  machine `DurationIterator`: an underlying stream of optional values plus a
  cursor; `next` reads the stream at the cursor and advances it.  The two
  iterator shapes the source constructs — `vec.into_iter()` and
  `vec.into_iter().chain(repeat(d))` — are given by `listIterator` and
  `chainStream`/`repeatStream`.
* A `dyn Fn()` callback's effect lives in its captured environment; stateful
  code is embedded as explicit state passing, so a callback is a function
  `W → W` on an arbitrary world type `W`, and the source's no-op closure
  `|| {}` is the identity.
-/

/-- Seconds, the unit every duration in the source is given in. -/
abbrev Duration := Nat

/-- Models `Duration::from_secs`. -/
def Duration.from_secs (n : Nat) : Duration := n

/-- Models a boxed `dyn Iterator<Item = Duration>` (the source's
`DurationIterator` type alias): an underlying stream of optional values
together with the cursor the iterator has advanced to.  `stream n = none`
means the underlying sequence is exhausted at position `n`. -/
structure DurationIterator where
  stream : Nat → Option Duration
  cursor : Nat

/-- Models `Iterator::next`: read the stream at the cursor, advance the
cursor. -/
def DurationIterator.next (it : DurationIterator) :
    Option Duration × DurationIterator :=
  (it.stream it.cursor, { it with cursor := it.cursor + 1 })

/-- Draw `n` values in order (repeated calls to `next`), returning the drawn
values and the iterator left behind. -/
def DurationIterator.drain :
    DurationIterator → Nat → List (Option Duration) × DurationIterator
  | it, 0 => ([], it)
  | it, Nat.succ n =>
      let r := it.next
      let rest := r.2.drain n
      (r.1 :: rest.1, rest.2)

/-- Models `vec.into_iter()`: an iterator over the elements of a finite
list, exhausted past its length. -/
def listIterator (l : List Duration) : DurationIterator :=
  { stream := fun n => l[n]?, cursor := 0 }

/-- Models `std::iter::repeat d`: the stream that yields `d` forever. -/
def repeatStream (d : Duration) : Nat → Option Duration :=
  fun _ => some d

/-- Models `vec.into_iter().chain(rest)`: all elements of `l` in order,
then the stream `rest`. -/
def chainStream (l : List Duration) (rest : Nat → Option Duration) :
    Nat → Option Duration :=
  fun n => if n < l.length then l[n]? else rest (n - l.length)

/-- The literal `initial_attempts` vector of
`get_standard_reconnect_strategy`. -/
def initial_attempts : List Duration :=
  [Duration.from_secs 5,
   Duration.from_secs 10,
   Duration.from_secs 20,
   Duration.from_secs 30,
   Duration.from_secs 40,
   Duration.from_secs 50,
   Duration.from_secs 60,
   Duration.from_secs (60 * 2),
   Duration.from_secs (60 * 5),
   Duration.from_secs (60 * 10),
   Duration.from_secs (60 * 20)]

/-- Models `get_standard_reconnect_strategy`: each call returns a fresh
iterator over `initial_attempts` chained with `repeat(Duration::from_secs
(60 * 30))`, its cursor at the start. -/
def get_standard_reconnect_strategy : Unit → DurationIterator :=
  fun _ =>
    { stream := chainStream initial_attempts
        (repeatStream (Duration.from_secs (60 * 30)))
      cursor := 0 }

/-- Models the `ReconnectOptions` struct.  `W` is the world type the
callbacks' side effects act on; the factory field is the zero-argument
function stored in `retries_to_attempt_fn`. -/
structure ReconnectOptions (W : Type) where
  retries_to_attempt_fn : Unit → DurationIterator
  exit_if_first_connect_fails : Bool
  on_connect_callback : W → W
  on_disconnect_callback : W → W
  on_connect_fail_callback : W → W

/-- Models `ReconnectOptions::new`: the default strategy, the flag set to
`true`, and the three no-op closures `|| {}` (identities on the world). -/
def ReconnectOptions.new (W : Type) : ReconnectOptions W :=
  { retries_to_attempt_fn := get_standard_reconnect_strategy
    exit_if_first_connect_fails := true
    on_connect_callback := fun w => w
    on_disconnect_callback := fun w => w
    on_connect_fail_callback := fun w => w }

/-- Models `with_retries_generator` at the `Vec<Duration>` instantiation of
its `IntoIterator` bound (the instantiation the source documents): the
stored factory becomes `move || Box::new(retries_generator().into_iter())`. -/
def ReconnectOptions.with_retries_generator {W : Type}
    (p : ReconnectOptions W) (retries_generator : Unit → List Duration) :
    ReconnectOptions W :=
  { p with retries_to_attempt_fn := fun _ => listIterator (retries_generator ()) }

/-- Models `with_exit_if_first_connect_fails`. -/
def ReconnectOptions.with_exit_if_first_connect_fails {W : Type}
    (p : ReconnectOptions W) (value : Bool) : ReconnectOptions W :=
  { p with exit_if_first_connect_fails := value }

/-- Models `with_on_connect_callback`. -/
def ReconnectOptions.with_on_connect_callback {W : Type}
    (p : ReconnectOptions W) (cb : W → W) : ReconnectOptions W :=
  { p with on_connect_callback := cb }

/-- Models `with_on_disconnect_callback`. -/
def ReconnectOptions.with_on_disconnect_callback {W : Type}
    (p : ReconnectOptions W) (cb : W → W) : ReconnectOptions W :=
  { p with on_disconnect_callback := cb }

/-- Models `with_on_connect_fail_callback`. -/
def ReconnectOptions.with_on_connect_fail_callback {W : Type}
    (p : ReconnectOptions W) (cb : W → W) : ReconnectOptions W :=
  { p with on_connect_fail_callback := cb }

/-- Two iterators drawn from separate factory invocations, so that drawing
from one while the other sits untouched can be spoken about as one joint
state. -/
structure IterPair where
  a : DurationIterator
  b : DurationIterator

/-- Advance the first iterator of the pair once; the second is untouched. -/
def IterPair.drawA (p : IterPair) : Option Duration × IterPair :=
  let r := p.a.next
  (r.1, { p with a := r.2 })

/-- Advance the first iterator of the pair `k` times. -/
def IterPair.drawAs : IterPair → Nat → IterPair
  | p, 0 => p
  | p, Nat.succ k => (p.drawA).2.drawAs k

/-- Draining advances the cursor by the number of draws and keeps the
stream. -/
theorem DurationIterator.drain_snd (it : DurationIterator) (n : Nat) :
    (it.drain n).2 = { it with cursor := it.cursor + n } := by
  induction n generalizing it with
  | zero => simp [DurationIterator.drain]
  | succ n ih =>
      simp only [DurationIterator.drain, DurationIterator.next, ih]
      congr 1
      omega

/-- Drawing from the first iterator of a pair any number of times leaves the
second iterator exactly as it was. -/
theorem IterPair.drawAs_b (p : IterPair) (k : Nat) : (p.drawAs k).b = p.b := by
  induction k generalizing p with
  | zero => rfl
  | succ k ih => exact ih _

/-- The default stream read at any position: the literal schedule inside the
first 11 positions, `1800` seconds everywhere after. -/
theorem standard_val_eq (n : Nat) :
    ((get_standard_reconnect_strategy ()).stream n).getD 0 =
      if n < 11 then initial_attempts.getD n 0 else Duration.from_secs (60 * 30) := by
  show (chainStream initial_attempts
      (repeatStream (Duration.from_secs (60 * 30))) n).getD 0 = _
  unfold chainStream repeatStream
  by_cases h : n < initial_attempts.length
  · have h11 : n < 11 := by simpa [initial_attempts] using h
    rw [if_pos h, if_pos h11, List.getD_eq_getElem?_getD]
  · have h11 : ¬ n < 11 := by simpa [initial_attempts] using h
    rw [if_neg h, if_neg h11]
    rfl

/-- C1: the default backoff factory's sequence starts with exactly
5, 10, 20, 30, 40, 50, 60, 120, 300, 600, 1200 seconds, and at every index
from 11 on it yields a value equal to 1800 seconds (the stream reads
`some 1800` there, and the draw performed after `n` draws returns
`some 1800`), so the sequence never signals end. -/
theorem C1_default_backoff_schedule :
    ((get_standard_reconnect_strategy ()).drain 11).1 =
      [Duration.from_secs 5, Duration.from_secs 10, Duration.from_secs 20,
       Duration.from_secs 30, Duration.from_secs 40, Duration.from_secs 50,
       Duration.from_secs 60, Duration.from_secs 120, Duration.from_secs 300,
       Duration.from_secs 600, Duration.from_secs 1200].map some ∧
    ∀ n, 11 ≤ n →
      (get_standard_reconnect_strategy ()).stream n =
        some (Duration.from_secs 1800) ∧
      ((((get_standard_reconnect_strategy ()).drain n).2).next).1 =
        some (Duration.from_secs 1800) := by
  constructor
  · rfl
  · intro n hn
    have hlen : ¬ n < initial_attempts.length := by
      simp only [initial_attempts, List.length]
      omega
    have hs : (get_standard_reconnect_strategy ()).stream n =
        some (Duration.from_secs 1800) := by
      show chainStream initial_attempts
        (repeatStream (Duration.from_secs (60 * 30))) n = _
      unfold chainStream repeatStream
      rw [if_neg hlen]
    refine ⟨hs, ?_⟩
    rw [DurationIterator.drain_snd]
    show (get_standard_reconnect_strategy ()).stream (0 + n) = _
    rw [Nat.zero_add]
    exact hs

/-- Witness for C1 at the concrete index 42. -/
theorem C1_default_backoff_schedule_witness :
    (get_standard_reconnect_strategy ()).stream 42 =
      some (Duration.from_secs 1800) :=
  (C1_default_backoff_schedule.2 42 (by decide)).1

/-- C2: a policy built by `ReconnectOptions::new` stores the default backoff
factory, the flag `true`, and three no-op callbacks. -/
theorem C2_new_defaults (W : Type) :
    (ReconnectOptions.new W).retries_to_attempt_fn =
      get_standard_reconnect_strategy ∧
    (ReconnectOptions.new W).exit_if_first_connect_fails = true ∧
    (ReconnectOptions.new W).on_connect_callback = (fun w => w) ∧
    (ReconnectOptions.new W).on_disconnect_callback = (fun w => w) ∧
    (ReconnectOptions.new W).on_connect_fail_callback = (fun w => w) :=
  ⟨rfl, rfl, rfl, rfl, rfl⟩

/-- C3: `with_exit_if_first_connect_fails false` on a fresh policy yields a
policy whose flag reads `false`, a fresh policy's flag reads `true`, and in
general the builder sets the flag to exactly its argument. -/
theorem C3_with_exit_flag (W : Type) :
    ((ReconnectOptions.new W).with_exit_if_first_connect_fails
        false).exit_if_first_connect_fails = false ∧
    (ReconnectOptions.new W).exit_if_first_connect_fails = true ∧
    ∀ (p : ReconnectOptions W) (b : Bool),
      (p.with_exit_if_first_connect_fails b).exit_if_first_connect_fails = b :=
  ⟨rfl, rfl, fun _ _ => rfl⟩

/-- C4: each callback-replacing builder sets exactly its own callback field
and leaves the other two callbacks, the backoff factory and the flag
unchanged. -/
theorem C4_callback_frame (W : Type) (p : ReconnectOptions W) (cb : W → W) :
    ((p.with_on_connect_callback cb).on_connect_callback = cb ∧
     (p.with_on_connect_callback cb).on_disconnect_callback =
       p.on_disconnect_callback ∧
     (p.with_on_connect_callback cb).on_connect_fail_callback =
       p.on_connect_fail_callback ∧
     (p.with_on_connect_callback cb).retries_to_attempt_fn =
       p.retries_to_attempt_fn ∧
     (p.with_on_connect_callback cb).exit_if_first_connect_fails =
       p.exit_if_first_connect_fails) ∧
    ((p.with_on_disconnect_callback cb).on_disconnect_callback = cb ∧
     (p.with_on_disconnect_callback cb).on_connect_callback =
       p.on_connect_callback ∧
     (p.with_on_disconnect_callback cb).on_connect_fail_callback =
       p.on_connect_fail_callback ∧
     (p.with_on_disconnect_callback cb).retries_to_attempt_fn =
       p.retries_to_attempt_fn ∧
     (p.with_on_disconnect_callback cb).exit_if_first_connect_fails =
       p.exit_if_first_connect_fails) ∧
    ((p.with_on_connect_fail_callback cb).on_connect_fail_callback = cb ∧
     (p.with_on_connect_fail_callback cb).on_connect_callback =
       p.on_connect_callback ∧
     (p.with_on_connect_fail_callback cb).on_disconnect_callback =
       p.on_disconnect_callback ∧
     (p.with_on_connect_fail_callback cb).retries_to_attempt_fn =
       p.retries_to_attempt_fn ∧
     (p.with_on_connect_fail_callback cb).exit_if_first_connect_fails =
       p.exit_if_first_connect_fails) :=
  ⟨⟨rfl, rfl, rfl, rfl, rfl⟩, ⟨rfl, rfl, rfl, rfl, rfl⟩,
   ⟨rfl, rfl, rfl, rfl, rfl⟩⟩

/-- C5: installing the generator of the finite list `[2s, 2s, 2s]` through
`with_retries_generator` yields a stored factory whose sequence drains to
exactly three values of 2 seconds, after which the next draw and every later
position yield nothing. -/
theorem C5_finite_generator (W : Type) (p : ReconnectOptions W) :
    ((((p.with_retries_generator (fun _ =>
        [Duration.from_secs 2, Duration.from_secs 2,
         Duration.from_secs 2])).retries_to_attempt_fn ()).drain 3).1 =
      [some (Duration.from_secs 2), some (Duration.from_secs 2),
       some (Duration.from_secs 2)] ∧
     (((((p.with_retries_generator (fun _ =>
        [Duration.from_secs 2, Duration.from_secs 2,
         Duration.from_secs 2])).retries_to_attempt_fn ()).drain 3).2).next).1 =
      none) ∧
    ∀ n, 3 ≤ n →
      ((p.with_retries_generator (fun _ =>
        [Duration.from_secs 2, Duration.from_secs 2,
         Duration.from_secs 2])).retries_to_attempt_fn ()).stream n = none := by
  refine ⟨⟨rfl, rfl⟩, ?_⟩
  intro n hn
  show ([Duration.from_secs 2, Duration.from_secs 2,
    Duration.from_secs 2] : List Duration)[n]? = none
  rw [List.getElem?_eq_none]
  simp only [List.length]
  omega

/-- Witness for C5 at the concrete index 10, on a default-constructed
policy over the world `Unit`. -/
theorem C5_finite_generator_witness :
    (((ReconnectOptions.new Unit).with_retries_generator (fun _ =>
      [Duration.from_secs 2, Duration.from_secs 2,
       Duration.from_secs 2])).retries_to_attempt_fn ()).stream 10 = none :=
  (C5_finite_generator Unit (ReconnectOptions.new Unit)).2 10 (by decide)

/-- C6: two invocations of the default factory yield sequences that read the
same value at every position, and advancing one of the pair any number of
times leaves the other iterator untouched, so the values it subsequently
yields are exactly those it would have yielded anyway. -/
theorem C6_factory_independence :
    (∀ n, (get_standard_reconnect_strategy ()).stream n =
          (get_standard_reconnect_strategy ()).stream n) ∧
    (∀ k, ((IterPair.mk (get_standard_reconnect_strategy ())
            (get_standard_reconnect_strategy ())).drawAs k).b =
          get_standard_reconnect_strategy ()) ∧
    ∀ k m,
      ((((IterPair.mk (get_standard_reconnect_strategy ())
          (get_standard_reconnect_strategy ())).drawAs k).b).drain m).1 =
      ((get_standard_reconnect_strategy ()).drain m).1 := by
  refine ⟨fun _ => rfl, fun k => IterPair.drawAs_b _ k, fun k m => ?_⟩
  rw [IterPair.drawAs_b]

/-- C7: the constructor and every builder operation are plain total
functions: on any well-typed input each returns the policy whose fields are
fully determined by one record update (no failure, no other change, no
partial state). -/
theorem C7_builders_total (W : Type) (p : ReconnectOptions W)
    (g : Unit → List Duration) (b : Bool) (cb : W → W) :
    p.with_retries_generator g =
      { p with retries_to_attempt_fn := fun _ => listIterator (g ()) } ∧
    p.with_exit_if_first_connect_fails b =
      { p with exit_if_first_connect_fails := b } ∧
    p.with_on_connect_callback cb = { p with on_connect_callback := cb } ∧
    p.with_on_disconnect_callback cb =
      { p with on_disconnect_callback := cb } ∧
    p.with_on_connect_fail_callback cb =
      { p with on_connect_fail_callback := cb } :=
  ⟨rfl, rfl, rfl, rfl, rfl⟩

/-- C8: the three callbacks of a fresh policy are the no-op (the identity on
the world), and invoking any of them any number of times leaves every world
state unchanged. -/
theorem C8_default_callbacks_noop (W : Type) :
    ((ReconnectOptions.new W).on_connect_callback = fun w => w) ∧
    ((ReconnectOptions.new W).on_disconnect_callback = fun w => w) ∧
    ((ReconnectOptions.new W).on_connect_fail_callback = fun w => w) ∧
    ∀ (n : Nat) (w : W),
      ((ReconnectOptions.new W).on_connect_callback)^[n] w = w ∧
      ((ReconnectOptions.new W).on_disconnect_callback)^[n] w = w ∧
      ((ReconnectOptions.new W).on_connect_fail_callback)^[n] w = w :=
  ⟨rfl, rfl, rfl, fun n _ =>
    ⟨Function.iterate_fixed rfl n, Function.iterate_fixed rfl n,
     Function.iterate_fixed rfl n⟩⟩

/-- C9: builder operations on distinct fields commute: for each of the ten
pairs of distinct-field builders, applying the two in either order yields
the same policy. -/
theorem C9_builders_commute (W : Type) (p : ReconnectOptions W)
    (g : Unit → List Duration) (b : Bool) (c1 c2 c3 : W → W) :
    (p.with_retries_generator g).with_exit_if_first_connect_fails b =
      (p.with_exit_if_first_connect_fails b).with_retries_generator g ∧
    (p.with_retries_generator g).with_on_connect_callback c1 =
      (p.with_on_connect_callback c1).with_retries_generator g ∧
    (p.with_retries_generator g).with_on_disconnect_callback c2 =
      (p.with_on_disconnect_callback c2).with_retries_generator g ∧
    (p.with_retries_generator g).with_on_connect_fail_callback c3 =
      (p.with_on_connect_fail_callback c3).with_retries_generator g ∧
    (p.with_exit_if_first_connect_fails b).with_on_connect_callback c1 =
      (p.with_on_connect_callback c1).with_exit_if_first_connect_fails b ∧
    (p.with_exit_if_first_connect_fails b).with_on_disconnect_callback c2 =
      (p.with_on_disconnect_callback c2).with_exit_if_first_connect_fails b ∧
    (p.with_exit_if_first_connect_fails b).with_on_connect_fail_callback c3 =
      (p.with_on_connect_fail_callback c3).with_exit_if_first_connect_fails b ∧
    (p.with_on_connect_callback c1).with_on_disconnect_callback c2 =
      (p.with_on_disconnect_callback c2).with_on_connect_callback c1 ∧
    (p.with_on_connect_callback c1).with_on_connect_fail_callback c3 =
      (p.with_on_connect_fail_callback c3).with_on_connect_callback c1 ∧
    (p.with_on_disconnect_callback c2).with_on_connect_fail_callback c3 =
      (p.with_on_connect_fail_callback c3).with_on_disconnect_callback c2 :=
  ⟨rfl, rfl, rfl, rfl, rfl, rfl, rfl, rfl, rfl, rfl⟩

/-- C10: the default backoff sequence is monotonically non-decreasing in
its index, and every value it yields lies between 5 and 1800 seconds
inclusive. -/
theorem C10_monotone_bounded :
    (∀ i j, i ≤ j →
      ((get_standard_reconnect_strategy ()).stream i).getD 0 ≤
      ((get_standard_reconnect_strategy ()).stream j).getD 0) ∧
    ∀ n,
      Duration.from_secs 5 ≤
        ((get_standard_reconnect_strategy ()).stream n).getD 0 ∧
      ((get_standard_reconnect_strategy ()).stream n).getD 0 ≤
        Duration.from_secs 1800 := by
  have hmono : Monotone
      (fun n => ((get_standard_reconnect_strategy ()).stream n).getD 0) := by
    apply monotone_nat_of_le_succ
    intro n
    show ((get_standard_reconnect_strategy ()).stream n).getD 0 ≤
      ((get_standard_reconnect_strategy ()).stream (n + 1)).getD 0
    rw [standard_val_eq, standard_val_eq]
    by_cases h : n + 1 < 11
    · have h0 : n < 11 := by omega
      rw [if_pos h0, if_pos h]
      interval_cases n <;> first | decide | omega
    · by_cases h0 : n < 11
      · have hn : n = 10 := by omega
        subst hn
        decide
      · rw [if_neg h0, if_neg h]
  refine ⟨fun i j hij => hmono hij, fun n => ?_⟩
  rw [standard_val_eq]
  by_cases h : n < 11
  · rw [if_pos h]
    interval_cases n <;> exact ⟨by decide, by decide⟩
  · rw [if_neg h]
    exact ⟨by decide, by decide⟩

/-- Witness for C10 at the concrete indices 3 and 7. -/
theorem C10_monotone_bounded_witness :
    ((get_standard_reconnect_strategy ()).stream 3).getD 0 ≤
      ((get_standard_reconnect_strategy ()).stream 7).getD 0 :=
  C10_monotone_bounded.1 3 7 (by decide)
